import Mathlib

/-!
Shallow embedding of the go-dbus-keyring client library (the later, dbus/v5
generation of the sources).  The DBus transport is modelled as a record of
response functions (`Conn`); every operation additionally emits a trace of
transport actions (`Act`) so that ordering and absence of subscriptions can
be stated.  The prompt-completion goroutine of prompt.go is modelled as a
pure function over the finite list of signals delivered on the shared
signal channel before it is closed.
-/

namespace Keyring

/-- Root object path of the secret service (constants.go). -/
def SecretServicePath : String := "/org/freedesktop/secrets"

/-- Collection interface name (constants.go). -/
def CollectionInterface : String := "org.freedesktop.Secret.Collection"

/-- Item interface name (constants.go). -/
def ItemInterface : String := "org.freedesktop.Secret.Item"

/-- Service interface name (constants.go). -/
def ServiceInterface : String := "org.freedesktop.Secret.Service"

/-- Prompt interface name (constants.go). -/
def PromptInterface : String := "org.freedesktop.Secret.Prompt"

/-- Method name constant from prompt.go. -/
def promptMethodPrompt : String := PromptInterface ++ ".Prompt"

/-- Method name constant from service.go. -/
def serviceMethodCreateCollection : String := ServiceInterface ++ ".CreateCollection"

/-- Method name constant from service.go. -/
def serviceMethodLock : String := ServiceInterface ++ ".Lock"

/-- Method name constant from service.go. -/
def serviceMethodUnlock : String := ServiceInterface ++ ".Unlock"

/-- Method name constant from service.go. -/
def serviceMethodReadAlias : String := ServiceInterface ++ ".ReadAlias"

/-- Method name constant from service.go. -/
def serviceMethodSetAlias : String := ServiceInterface ++ ".SetAlias"

/-- Property name constant from service.go. -/
def servicePropCollections : String := ServiceInterface ++ ".Collections"

/-- Property name constant from collection.go. -/
def collectionPropLabel : String := CollectionInterface ++ ".Label"

/-- Property name constant from collection.go. -/
def collectionPropItems : String := CollectionInterface ++ ".Items"

/-- Method name constant from collection.go. -/
def collectionMethodDelete : String := CollectionInterface ++ ".Delete"

/-- Method name constant from item.go. -/
def itemMethodDelete : String := ItemInterface ++ ".Delete"

/-- Property name constant from item.go. -/
def itemPropLabel : String := ItemInterface ++ ".Label"

/-- Dynamically typed DBus values as they appear in call bodies, property
reads and signal bodies.  `path` is dbus.ObjectPath, `paths` is
[]dbus.ObjectPath, `dict` is map[string]dbus.Variant; a variant slot carries
its payload directly. -/
inductive DValue where
  | path (p : String)
  | str (s : String)
  | bool (b : Bool)
  | paths (ps : List String)
  | dict (entries : List (String × DValue))
  | variant (v : DValue)

/-- One signal delivered on the shared signal channel: originating object
path and signal body (dbus.Signal). -/
structure Signal where
  path : String
  body : List DValue

/-- Observable transport actions, recorded as a trace by each modelled
operation: establishing a signal match rule, registering the signal channel
on the connection, a remote method call (with its arguments), and a
property read. -/
inductive Act where
  | addMatch (iface member : String)
  | subscribeSignals
  | call (path method : String) (args : List DValue)
  | getProp (path prop : String)

/-- The fake transport: responses of the remote side to method calls
(keyed by object path, method and arguments) and property reads, whether
establishing the signal match rule fails, and the finite list of signals
delivered on the shared channel before it is closed. -/
structure Conn where
  call : String → String → List DValue → Except String (List DValue)
  getProp : String → String → Except String DValue
  addMatchErr : Option String
  stream : List Signal

/-- Error string produced by ErrInvalidType in common.go (the concrete Go
message also interpolates the runtime type of the offending value). -/
def ErrInvalidType (expected : String) : String :=
  "invalid type: expected " ++ expected

/-- Prompt handle (prompt struct in prompt.go: connection plus object
path). -/
structure PromptH where
  conn : Conn
  path : String

/-- GetPrompt from prompt.go: binds a connection and a path into a prompt
handle. -/
def GetPrompt (conn : Conn) (path : String) : PromptH :=
  { conn := conn, path := path }

/-- Path accessor of the prompt handle (prompt.go). -/
def PromptH.Path (p : PromptH) : String :=
  p.path

/-- dbus.Store(res, &dismissed, &result) from prompt.go line 83: succeeds
exactly when the stored body consists of a boolean followed by one further
value (the variant payload). -/
def storeCompleted : List DValue → Option (Bool × DValue)
  | [DValue.bool d, v] => some (d, v)
  | _ => none

/-- The receive loop of the goroutine in prompt.go lines 73-79: iterate
over the signal channel, keep the body of the first signal whose path
equals the prompt path and stop; if the channel closes first, `res` keeps
its zero value (nil body). -/
def promptWaitBody (path : String) (stream : List Signal) : List DValue :=
  match stream.find? (fun s => s.path == path) with
  | some s => s.body
  | none => []

/-- The complete goroutine of prompt.go lines 67-96, as the ordered list of
values sent on the result channel: on store failure send nil, on
dismissed send nil, otherwise send the result variant.  Each control path
performs exactly one send and returns. -/
def promptGoroutine (path : String) (stream : List Signal) : List (Option DValue) :=
  match storeCompleted (promptWaitBody path stream) with
  | none => [none]
  | some (d, v) => if d then [none] else [some v]

/-- A blocking receive from the result channel: the first value sent on
it (the goroutine always performs exactly one send before the channel
value is consumed). -/
def chanRecv (sends : List (Option DValue)) : Option DValue :=
  (sends.head?).getD none

/-- prompt.Prompt from prompt.go lines 56-103: establish the Completed
match rule (fail early if that fails), register the signal channel, spawn
the filtering goroutine, then issue the remote Prompt call with the window
identifier; return the result channel contents. -/
def PromptH.Prompt (p : PromptH) (windowID : String) :
    List Act × Except String (List (Option DValue)) :=
  match p.conn.addMatchErr with
  | some e => ([Act.addMatch PromptInterface "Completed"], Except.error e)
  | none =>
    match p.conn.call p.path promptMethodPrompt [DValue.str windowID] with
    | Except.error e =>
        ([Act.addMatch PromptInterface "Completed", Act.subscribeSignals,
          Act.call p.path promptMethodPrompt [DValue.str windowID]],
         Except.error e)
    | Except.ok _ =>
        ([Act.addMatch PromptInterface "Completed", Act.subscribeSignals,
          Act.call p.path promptMethodPrompt [DValue.str windowID]],
         Except.ok (promptGoroutine p.path p.conn.stream))

/-- Session handle (session struct in session.go: object path; the bus
object binds the same path). -/
structure SessionH where
  path : String

/-- GetSession from session.go: always succeeds, returning the handle and
a nil error. -/
def GetSession (conn : Conn) (path : String) : SessionH × Option String :=
  ({ path := path }, none)

/-- Path accessor of the session handle (session.go). -/
def SessionH.Path (s : SessionH) : String :=
  s.path

/-- Collection handle (collection struct in collection.go: connection plus
object path). -/
structure CollH where
  conn : Conn
  path : String

/-- Path accessor of the collection handle (collection.go). -/
def CollH.Path (c : CollH) : String :=
  c.path

/-- collection.GetLabel from collection.go lines 92-104: read the Label
property and require a string value. -/
def CollH.GetLabel (c : CollH) : List Act × Except String String :=
  match c.conn.getProp c.path collectionPropLabel with
  | Except.error e =>
      ([Act.getProp c.path collectionPropLabel], Except.error e)
  | Except.ok (DValue.str l) =>
      ([Act.getProp c.path collectionPropLabel], Except.ok l)
  | Except.ok _ =>
      ([Act.getProp c.path collectionPropLabel],
       Except.error (ErrInvalidType "string"))

/-- GetCollection (the handle constructor) from collection.go lines 71-84:
build the handle and validate existence by fetching the label once. -/
def GetCollectionH (conn : Conn) (path : String) : List Act × Except String CollH :=
  match CollH.GetLabel { conn := conn, path := path } with
  | (t, Except.error e) => (t, Except.error e)
  | (t, Except.ok _) => (t, Except.ok { conn := conn, path := path })

/-- Item handle (item struct in item.go: object path plus connection). -/
structure ItemH where
  path : String
  conn : Conn

/-- item.GetLabel from item.go lines 226-237: read the Label property and
require a string value. -/
def ItemH.GetLabel (i : ItemH) : List Act × Except String String :=
  match i.conn.getProp i.path itemPropLabel with
  | Except.error e =>
      ([Act.getProp i.path itemPropLabel], Except.error e)
  | Except.ok (DValue.str l) =>
      ([Act.getProp i.path itemPropLabel], Except.ok l)
  | Except.ok _ =>
      ([Act.getProp i.path itemPropLabel],
       Except.error (ErrInvalidType "string"))

/-- GetItem (the handle constructor) from item.go lines 156-169: build the
handle and validate existence by fetching the label once. -/
def GetItemH (conn : Conn) (path : String) : List Act × Except String ItemH :=
  match ItemH.GetLabel { path := path, conn := conn } with
  | (t, Except.error e) => (t, Except.error e)
  | (t, Except.ok _) => (t, Except.ok { path := path, conn := conn })

/-- Service handle (service struct in service.go: the connection; the bus
object is bound to the fixed root path). -/
structure ServiceH where
  conn : Conn

/-- GetSecretService from service.go lines 279-288: always succeeds. -/
def GetSecretService (conn : Conn) : ServiceH × Option String :=
  ({ conn := conn }, none)

/-- The per-path loop of service.GetAllCollections (service.go lines
341-349): construct one collection handle per path, aborting with the
first construction failure. -/
def getCollectionsLoop (conn : Conn) : List String → List Act × Except String (List CollH)
  | [] => ([], Except.ok [])
  | p :: rest =>
    match GetCollectionH conn p with
    | (t, Except.error e) => (t, Except.error e)
    | (t, Except.ok h) =>
      match getCollectionsLoop conn rest with
      | (t2, Except.error e) => (t ++ t2, Except.error e)
      | (t2, Except.ok hs) => (t ++ t2, Except.ok (h :: hs))

/-- service.GetAllCollections from service.go lines 330-352: read the
Collections property, require a path list, and resolve every path to a
handle. -/
def ServiceH.GetAllCollections (svc : ServiceH) : List Act × Except String (List CollH) :=
  match svc.conn.getProp SecretServicePath servicePropCollections with
  | Except.error e =>
      ([Act.getProp SecretServicePath servicePropCollections], Except.error e)
  | Except.ok (DValue.paths ps) =>
      match getCollectionsLoop svc.conn ps with
      | (t, r) => (Act.getProp SecretServicePath servicePropCollections :: t, r)
  | Except.ok _ =>
      ([Act.getProp SecretServicePath servicePropCollections],
       Except.error (ErrInvalidType "[]ObjectPath"))

/-- The scan loop of service.GetCollection (service.go lines 316-325):
fetch each candidate's label and return the first handle whose label
equals the requested name. -/
def scanCollections (name : String) : List CollH → List Act × Except String CollH
  | [] => ([], Except.error "unknown collection")
  | h :: rest =>
    match h.GetLabel with
    | (t, Except.error e) => (t, Except.error e)
    | (t, Except.ok l) =>
      if l = name then (t, Except.ok h)
      else
        match scanCollections name rest with
        | (t2, r) => (t ++ t2, r)

/-- service.GetCollection from service.go lines 310-327: enumerate all
collections, then linearly scan for the first label match. -/
def ServiceH.GetCollection (svc : ServiceH) (name : String) : List Act × Except String CollH :=
  match svc.GetAllCollections with
  | (t, Except.error e) => (t, Except.error e)
  | (t, Except.ok hs) =>
    match scanCollections name hs with
    | (t2, r) => (t ++ t2, r)

/-- The per-path loop of collection.GetAllItems (collection.go lines
161-167): construct one item handle per path, aborting with the first
construction failure. -/
def getItemsLoop (conn : Conn) : List String → List Act × Except String (List ItemH)
  | [] => ([], Except.ok [])
  | p :: rest =>
    match GetItemH conn p with
    | (t, Except.error e) => (t, Except.error e)
    | (t, Except.ok h) =>
      match getItemsLoop conn rest with
      | (t2, Except.error e) => (t ++ t2, Except.error e)
      | (t2, Except.ok hs) => (t ++ t2, Except.ok (h :: hs))

/-- collection.GetAllItems from collection.go lines 154-173: read the
Items property, require a path list, and resolve every path to a
handle. -/
def CollH.GetAllItems (c : CollH) : List Act × Except String (List ItemH) :=
  match c.conn.getProp c.path collectionPropItems with
  | Except.error e =>
      ([Act.getProp c.path collectionPropItems], Except.error e)
  | Except.ok (DValue.paths ps) =>
      match getItemsLoop c.conn ps with
      | (t, r) => (Act.getProp c.path collectionPropItems :: t, r)
  | Except.ok _ =>
      ([Act.getProp c.path collectionPropItems],
       Except.error (ErrInvalidType "[]string"))

/-- The scan loop of collection.GetItem (collection.go lines 182-191):
fetch each candidate's label and return the first handle whose label
equals the requested name. -/
def scanItems (name : String) : List ItemH → List Act × Except String ItemH
  | [] => ([], Except.error "no such item")
  | h :: rest =>
    match h.GetLabel with
    | (t, Except.error e) => (t, Except.error e)
    | (t, Except.ok l) =>
      if l = name then (t, Except.ok h)
      else
        match scanItems name rest with
        | (t2, r) => (t ++ t2, r)

/-- collection.GetItem from collection.go lines 176-194: enumerate all
items, then linearly scan for the first label match. -/
def CollH.GetItem (c : CollH) (name : String) : List Act × Except String ItemH :=
  match c.GetAllItems with
  | (t, Except.error e) => (t, Except.error e)
  | (t, Except.ok hs) =>
    match scanItems name hs with
    | (t2, r) => (t ++ t2, r)

/-- call.Store(&collectionPath, &promptPath) from service.go line 475 (and
the analogous two-slot store of Lock/Unlock uses storeLock): requires
exactly two object paths. -/
def storeTwoPaths : List DValue → Option (String × String)
  | [DValue.path a, DValue.path b] => some (a, b)
  | _ => none

/-- call.Store(&locked, &prompt) from service.go lines 518 and 547:
requires a path list followed by one object path. -/
def storeLock : List DValue → Option (List String × String)
  | [DValue.paths l, DValue.path p] => some (l, p)
  | _ => none

/-- call.Store(&prompt) from item.go line 252 and collection.go line 133:
requires exactly one object path. -/
def storeOnePath : List DValue → Option String
  | [DValue.path p] => some p
  | _ => none

/-- service.CreateCollection from service.go lines 462-507: issue the
trigger call, store (collectionPath, promptPath); when the prompt path is
not the sentinel, drive the prompt and decode the delivered variant as the
new collection path; finally construct the collection handle. -/
def ServiceH.CreateCollection (svc : ServiceH) (label aliasName : String) :
    List Act × Except String CollH :=
  let props := DValue.dict [(collectionPropLabel, DValue.variant (DValue.str label))]
  let a := Act.call SecretServicePath serviceMethodCreateCollection [props, DValue.str aliasName]
  match svc.conn.call SecretServicePath serviceMethodCreateCollection
      [props, DValue.str aliasName] with
  | Except.error e => ([a], Except.error e)
  | Except.ok body =>
    match storeTwoPaths body with
    | none => ([a], Except.error "store error")
    | some (collectionPath, promptPath) =>
      if promptPath ≠ "/" then
        match (GetPrompt svc.conn promptPath).Prompt "" with
        | (t, Except.error e) => (a :: t, Except.error e)
        | (t, Except.ok sends) =>
          match chanRecv sends with
          | none => (a :: t, Except.error "prompt dismissed")
          | some (DValue.path p2) =>
            match GetCollectionH svc.conn p2 with
            | (t2, Except.error e) => (a :: (t ++ t2), Except.error e)
            | (t2, Except.ok col) => (a :: (t ++ t2), Except.ok col)
          | some _ => (a :: t, Except.error (ErrInvalidType "ObjectPath"))
      else
        match GetCollectionH svc.conn collectionPath with
        | (t2, Except.error e) => (a :: t2, Except.error e)
        | (t2, Except.ok col) => (a :: t2, Except.ok col)

/-- service.Lock from service.go lines 510-536: issue the trigger call,
store (locked, prompt); when the prompt path is not the sentinel, drive
the prompt; a nil channel value yields the locked list together with the
prompt-dismissed error, otherwise the locked list with nil error. -/
def ServiceH.Lock (svc : ServiceH) (paths : List String) :
    List Act × (Option (List String) × Option String) :=
  let a := Act.call SecretServicePath serviceMethodLock [DValue.paths paths]
  match svc.conn.call SecretServicePath serviceMethodLock [DValue.paths paths] with
  | Except.error e => ([a], (none, some e))
  | Except.ok body =>
    match storeLock body with
    | none => ([a], (none, some "store error"))
    | some (locked, pr) =>
      if pr ≠ "/" then
        match (GetPrompt svc.conn pr).Prompt "" with
        | (t, Except.error e) => (a :: t, (none, some e))
        | (t, Except.ok sends) =>
          match chanRecv sends with
          | none => (a :: t, (some locked, some "prompt dismissed"))
          | some _ => (a :: t, (some locked, none))
      else ([a], (some locked, none))

/-- service.Unlock from service.go lines 539-565: identical to Lock with
the Unlock method. -/
def ServiceH.Unlock (svc : ServiceH) (paths : List String) :
    List Act × (Option (List String) × Option String) :=
  let a := Act.call SecretServicePath serviceMethodUnlock [DValue.paths paths]
  match svc.conn.call SecretServicePath serviceMethodUnlock [DValue.paths paths] with
  | Except.error e => ([a], (none, some e))
  | Except.ok body =>
    match storeLock body with
    | none => ([a], (none, some "store error"))
    | some (locked, pr) =>
      if pr ≠ "/" then
        match (GetPrompt svc.conn pr).Prompt "" with
        | (t, Except.error e) => (a :: t, (none, some e))
        | (t, Except.ok sends) =>
          match chanRecv sends with
          | none => (a :: t, (some locked, some "prompt dismissed"))
          | some _ => (a :: t, (some locked, none))
      else ([a], (some locked, none))

/-- item.Delete from item.go lines 245-270: issue the trigger call, store
the prompt path; when it is not the sentinel, drive the prompt; a nil
channel value yields the prompt-dismissed error. -/
def ItemH.Delete (i : ItemH) : List Act × Option String :=
  let a := Act.call i.path itemMethodDelete []
  match i.conn.call i.path itemMethodDelete [] with
  | Except.error e => ([a], some e)
  | Except.ok body =>
    match storeOnePath body with
    | none => ([a], some "store error")
    | some pr =>
      if pr ≠ "/" then
        match (GetPrompt i.conn pr).Prompt "" with
        | (t, Except.error e) => (a :: t, some e)
        | (t, Except.ok sends) =>
          match chanRecv sends with
          | none => (a :: t, some "prompt dismissed")
          | some _ => (a :: t, none)
      else ([a], none)

/-- collection.Delete from collection.go lines 126-151: issue the trigger
call, store the prompt path; when it is not the sentinel, drive the
prompt; a nil channel value yields the (misspelled in the source)
prompted-dismissed error. -/
def CollH.Delete (c : CollH) : List Act × Option String :=
  let a := Act.call c.path collectionMethodDelete []
  match c.conn.call c.path collectionMethodDelete [] with
  | Except.error e => ([a], some e)
  | Except.ok body =>
    match storeOnePath body with
    | none => ([a], some "store error")
    | some pr =>
      if pr ≠ "/" then
        match (GetPrompt c.conn pr).Prompt "" with
        | (t, Except.error e) => (a :: t, some e)
        | (t, Except.ok sends) =>
          match chanRecv sends with
          | none => (a :: t, some "prompted dismissed")
          | some _ => (a :: t, none)
      else ([a], none)

/-- service.ReadAlias from service.go lines 430-446: issue the call, store
one object path, and reject the null path with the unknown-alias error
(note the Go code returns the path together with that error). -/
def ServiceH.ReadAlias (svc : ServiceH) (name : String) :
    List Act × (String × Option String) :=
  let a := Act.call SecretServicePath serviceMethodReadAlias [DValue.str name]
  match svc.conn.call SecretServicePath serviceMethodReadAlias [DValue.str name] with
  | Except.error e => ([a], ("", some e))
  | Except.ok body =>
    match body with
    | [DValue.path p] =>
      if p = "/" then ([a], (p, some "unknown alias"))
      else ([a], (p, none))
    | _ => ([a], ("", some "store error"))

/-- service.SetAlias from service.go lines 451-453: a single remote call,
returning its error. -/
def ServiceH.SetAlias (svc : ServiceH) (name path : String) :
    List Act × Option String :=
  ([Act.call SecretServicePath serviceMethodSetAlias [DValue.str name, DValue.path path]],
   match svc.conn.call SecretServicePath serviceMethodSetAlias
       [DValue.str name, DValue.path path] with
   | Except.error e => some e
   | Except.ok _ => none)

/-- service.RemoveAlias from service.go lines 456-458: delegates to
SetAlias with the null path. -/
def ServiceH.RemoveAlias (svc : ServiceH) (name : String) : List Act × Option String :=
  svc.SetAlias name "/"

/-! Helper lemmas about the prompt goroutine and the enumeration loops. -/

theorem find_first_match (p : String) (xs ys : List Signal) (s : Signal)
    (hxs : ∀ x ∈ xs, x.path ≠ p) (hs : s.path = p) :
    List.find? (fun t => t.path == p) (xs ++ s :: ys) = some s := by
  induction xs with
  | nil =>
    rw [List.nil_append, List.find?_cons_of_pos]
    simp [hs]
  | cons x rest ih =>
    rw [List.cons_append, List.find?_cons_of_neg]
    · exact ih (fun a ha => hxs a (List.mem_cons_of_mem x ha))
    · simp [hxs x (List.mem_cons_self x rest)]

theorem promptWaitBody_first_match (p : String) (xs ys : List Signal) (s : Signal)
    (hxs : ∀ x ∈ xs, x.path ≠ p) (hs : s.path = p) :
    promptWaitBody p (xs ++ s :: ys) = s.body := by
  unfold promptWaitBody
  rw [find_first_match p xs ys s hxs hs]

theorem promptWaitBody_no_match (p : String) (stream : List Signal)
    (h : ∀ s ∈ stream, s.path ≠ p) :
    promptWaitBody p stream = [] := by
  unfold promptWaitBody
  rw [List.find?_eq_none.mpr (fun x hx => by simp [h x hx])]

theorem promptGoroutine_dismissed (p : String) (stream : List Signal) (v : DValue)
    (hev : storeCompleted (promptWaitBody p stream) = some (true, v)) :
    promptGoroutine p stream = [none] := by
  unfold promptGoroutine
  rw [hev]
  simp

theorem prompt_shape_ok (conn : Conn) (pp w : String) (b : List DValue)
    (haddm : conn.addMatchErr = none)
    (hb : conn.call pp promptMethodPrompt [DValue.str w] = Except.ok b) :
    (GetPrompt conn pp).Prompt w =
      ([Act.addMatch PromptInterface "Completed", Act.subscribeSignals,
        Act.call pp promptMethodPrompt [DValue.str w]],
       Except.ok (promptGoroutine pp conn.stream)) := by
  simp [PromptH.Prompt, GetPrompt, haddm, hb]

/-- C1: for every prompt wait, the Completed-signal subscription is
established strictly before the remote begin call is issued (the trace
lists the match rule and signal-channel registration before the Prompt
call), and if establishing the subscription fails the begin call is never
issued and the wait fails with that error. -/
theorem c1_subscribe_before_begin (conn : Conn) (path windowID : String) :
    (∀ e, conn.addMatchErr = some e →
      PromptH.Prompt (GetPrompt conn path) windowID =
        ([Act.addMatch PromptInterface "Completed"], Except.error e)) ∧
    (conn.addMatchErr = none →
      (PromptH.Prompt (GetPrompt conn path) windowID).1 =
        [Act.addMatch PromptInterface "Completed", Act.subscribeSignals,
         Act.call path promptMethodPrompt [DValue.str windowID]]) := by
  constructor
  · intro e he
    simp [PromptH.Prompt, GetPrompt, he]
  · intro h
    cases hc : conn.call path promptMethodPrompt [DValue.str windowID] <;>
      simp [PromptH.Prompt, GetPrompt, h, hc]

def connC1a : Conn :=
  { call := fun _ _ _ => Except.ok []
    getProp := fun _ _ => Except.ok (DValue.str "")
    addMatchErr := some "match failed"
    stream := [] }

def connC1b : Conn :=
  { connC1a with addMatchErr := none }

theorem c1_witness :
    PromptH.Prompt (GetPrompt connC1a "/p/1") "w" =
      ([Act.addMatch PromptInterface "Completed"], Except.error "match failed") ∧
    (PromptH.Prompt (GetPrompt connC1b "/p/1") "w").1 =
      [Act.addMatch PromptInterface "Completed", Act.subscribeSignals,
       Act.call "/p/1" promptMethodPrompt [DValue.str "w"]] :=
  ⟨(c1_subscribe_before_begin connC1a "/p/1" "w").1 "match failed" rfl,
   (c1_subscribe_before_begin connC1b "/p/1" "w").2 rfl⟩

/-- C2: the waiter for a prompt path discards every signal whose path
differs and keeps waiting: the channel outcome on any interleaving equals
the outcome on the stream containing only the first matching signal, and
when that signal decodes as (dismissed, result) the caller receives the
result exactly when it is not dismissed. -/
theorem c2_filter_first_match (p : String) (xs ys : List Signal) (s : Signal)
    (hxs : ∀ x ∈ xs, x.path ≠ p) (hs : s.path = p) :
    promptGoroutine p (xs ++ s :: ys) = promptGoroutine p [s] ∧
    (∀ d v, s.body = [DValue.bool d, v] →
      chanRecv (promptGoroutine p (xs ++ s :: ys)) = if d then none else some v) := by
  have hbody : promptWaitBody p (xs ++ s :: ys) = s.body :=
    promptWaitBody_first_match p xs ys s hxs hs
  have hbody2 : promptWaitBody p [s] = s.body := by
    have : ([] : List Signal) ++ s :: [] = [s] := rfl
    rw [← this]
    exact promptWaitBody_first_match p [] [] s (by simp) hs
  constructor
  · unfold promptGoroutine
    rw [hbody, hbody2]
  · intro d v hb
    unfold promptGoroutine
    rw [hbody, hb]
    cases d <;> simp [storeCompleted, chanRecv]

theorem c2_witness :
    promptGoroutine "/p/b"
        ([{ path := "/p/a", body := [] }] ++
          { path := "/p/b", body := [DValue.bool false, DValue.str "ok"] } ::
          [{ path := "/p/c", body := [] }]) =
      promptGoroutine "/p/b" [{ path := "/p/b", body := [DValue.bool false, DValue.str "ok"] }] ∧
    chanRecv (promptGoroutine "/p/b"
        ([{ path := "/p/a", body := [] }] ++
          { path := "/p/b", body := [DValue.bool false, DValue.str "ok"] } ::
          [{ path := "/p/c", body := [] }])) = some (DValue.str "ok") := by
  have h := c2_filter_first_match "/p/b"
    [{ path := "/p/a", body := [] }] [{ path := "/p/c", body := [] }]
    { path := "/p/b", body := [DValue.bool false, DValue.str "ok"] }
    (by intro x hx; rw [List.mem_singleton] at hx; subst hx; decide) rfl
  exact ⟨h.1, h.2 false (DValue.str "ok") rfl⟩

def connC3 : Conn :=
  { call := fun _ m _ =>
      if m = itemMethodDelete then Except.ok [DValue.path "/p/1"] else Except.ok []
    getProp := fun _ _ => Except.ok (DValue.str "l")
    addMatchErr := none
    stream := [] }

/-- C3 counterexample: with the event stream closed before any matching
event arrives, the blocked caller of item.Delete receives exactly the
prompt-dismissed outcome ("prompt dismissed"), and at the channel level
the closed-stream outcome is identical to the dismissed outcome — the
claim's distinct DecodeError/ChannelClosed outcome does not exist. -/
theorem c3_counterexample :
    (ItemH.Delete { path := "/item/1", conn := connC3 }).2 = some "prompt dismissed" ∧
    promptGoroutine "/p/1" [] =
      promptGoroutine "/p/1" [{ path := "/p/1", body := [DValue.bool true, DValue.str ""] }] := by
  constructor
  · rfl
  · rfl

/-- C3 (amended): for every pending prompt wait the goroutine performs
exactly one channel send (never hangs once the stream is closed); if the
stream closes with no matching event, or the matching event cannot be
decoded as (dismissed, result), the caller receives the nil outcome — the
same outcome as a dismissed prompt, which the enclosing operations report
as prompt dismissed. -/
theorem c3_amended (p : String) (stream : List Signal) :
    (promptGoroutine p stream).length = 1 ∧
    ((∀ s ∈ stream, s.path ≠ p) → promptGoroutine p stream = [none]) ∧
    (∀ xs s ys, (∀ x ∈ xs, x.path ≠ p) → s.path = p → storeCompleted s.body = none →
      promptGoroutine p (xs ++ s :: ys) = [none]) := by
  refine ⟨?_, ?_, ?_⟩
  · unfold promptGoroutine
    cases h : storeCompleted (promptWaitBody p stream) with
    | none => simp
    | some dv =>
      obtain ⟨d, v⟩ := dv
      cases d <;> simp
  · intro hall
    unfold promptGoroutine
    rw [promptWaitBody_no_match p stream hall]
    rfl
  · intro xs s ys hxs hs hdec
    unfold promptGoroutine
    rw [promptWaitBody_first_match p xs ys s hxs hs, hdec]

theorem c3_amended_witness :
    (promptGoroutine "/p/1" []).length = 1 ∧
    promptGoroutine "/p/1" [] = [none] ∧
    promptGoroutine "/p/1" ([] ++ { path := "/p/1", body := [DValue.str "junk"] } :: []) = [none] :=
  ⟨(c3_amended "/p/1" []).1,
   (c3_amended "/p/1" []).2.1 (by intro s hs; simp at hs),
   (c3_amended "/p/1" []).2.2 [] { path := "/p/1", body := [DValue.str "junk"] } []
     (by intro x hx; simp at hx) rfl rfl⟩

/-- C4: for every privileged operation (item delete, collection delete,
create-collection, lock, unlock) whose trigger call returns the sentinel
prompt path "/", the operation returns its primary result immediately and
its trace contains no signal subscription and no prompt begin call. -/
theorem c4_sentinel_skips_prompt (conn : Conn) :
    (∀ label aliasName cp s,
      conn.call SecretServicePath serviceMethodCreateCollection
          [DValue.dict [(collectionPropLabel, DValue.variant (DValue.str label))],
           DValue.str aliasName] = Except.ok [DValue.path cp, DValue.path "/"] →
      conn.getProp cp collectionPropLabel = Except.ok (DValue.str s) →
      ServiceH.CreateCollection { conn := conn } label aliasName =
        ([Act.call SecretServicePath serviceMethodCreateCollection
            [DValue.dict [(collectionPropLabel, DValue.variant (DValue.str label))],
             DValue.str aliasName],
          Act.getProp cp collectionPropLabel],
         Except.ok { conn := conn, path := cp })) ∧
    (∀ ps l,
      conn.call SecretServicePath serviceMethodLock [DValue.paths ps] =
        Except.ok [DValue.paths l, DValue.path "/"] →
      ServiceH.Lock { conn := conn } ps =
        ([Act.call SecretServicePath serviceMethodLock [DValue.paths ps]],
         (some l, none))) ∧
    (∀ ps l,
      conn.call SecretServicePath serviceMethodUnlock [DValue.paths ps] =
        Except.ok [DValue.paths l, DValue.path "/"] →
      ServiceH.Unlock { conn := conn } ps =
        ([Act.call SecretServicePath serviceMethodUnlock [DValue.paths ps]],
         (some l, none))) ∧
    (∀ ip,
      conn.call ip itemMethodDelete [] = Except.ok [DValue.path "/"] →
      ItemH.Delete { path := ip, conn := conn } =
        ([Act.call ip itemMethodDelete []], none)) ∧
    (∀ cp,
      conn.call cp collectionMethodDelete [] = Except.ok [DValue.path "/"] →
      CollH.Delete { conn := conn, path := cp } =
        ([Act.call cp collectionMethodDelete []], none)) := by
  refine ⟨?_, ?_, ?_, ?_, ?_⟩
  · intro label aliasName cp s htr hlab
    simp [ServiceH.CreateCollection, htr, storeTwoPaths, GetCollectionH, CollH.GetLabel, hlab]
  · intro ps l htr
    simp [ServiceH.Lock, htr, storeLock]
  · intro ps l htr
    simp [ServiceH.Unlock, htr, storeLock]
  · intro ip htr
    simp [ItemH.Delete, htr, storeOnePath]
  · intro cp htr
    simp [CollH.Delete, htr, storeOnePath]

def connC4 : Conn :=
  { call := fun _ m _ =>
      if m = serviceMethodCreateCollection then
        Except.ok [DValue.path "/c/new", DValue.path "/"]
      else if m = serviceMethodLock then
        Except.ok [DValue.paths ["/c/a"], DValue.path "/"]
      else if m = serviceMethodUnlock then
        Except.ok [DValue.paths ["/c/b"], DValue.path "/"]
      else
        Except.ok [DValue.path "/"]
    getProp := fun _ _ => Except.ok (DValue.str "lbl")
    addMatchErr := none
    stream := [] }

theorem c4_witness :
    ServiceH.CreateCollection { conn := connC4 } "test" "" =
      ([Act.call SecretServicePath serviceMethodCreateCollection
          [DValue.dict [(collectionPropLabel, DValue.variant (DValue.str "test"))],
           DValue.str ""],
        Act.getProp "/c/new" collectionPropLabel],
       Except.ok { conn := connC4, path := "/c/new" }) ∧
    ServiceH.Lock { conn := connC4 } ["/c/a"] =
      ([Act.call SecretServicePath serviceMethodLock [DValue.paths ["/c/a"]]],
       (some ["/c/a"], none)) ∧
    ServiceH.Unlock { conn := connC4 } ["/c/b"] =
      ([Act.call SecretServicePath serviceMethodUnlock [DValue.paths ["/c/b"]]],
       (some ["/c/b"], none)) ∧
    ItemH.Delete { path := "/it/1", conn := connC4 } =
      ([Act.call "/it/1" itemMethodDelete []], none) ∧
    CollH.Delete { conn := connC4, path := "/c/1" } =
      ([Act.call "/c/1" collectionMethodDelete []], none) :=
  ⟨(c4_sentinel_skips_prompt connC4).1 "test" "" "/c/new" "lbl" rfl rfl,
   (c4_sentinel_skips_prompt connC4).2.1 ["/c/a"] ["/c/a"] rfl,
   (c4_sentinel_skips_prompt connC4).2.2.1 ["/c/b"] ["/c/b"] rfl,
   (c4_sentinel_skips_prompt connC4).2.2.2.1 "/it/1" rfl,
   (c4_sentinel_skips_prompt connC4).2.2.2.2 "/c/1" rfl⟩

/-- C5: when the trigger call of a privileged operation demands a prompt
and the matching completion event carries dismissed = true, the caller
receives the prompt-dismissed outcome: create-collection fails with
"prompt dismissed" (no collection), lock and unlock return "prompt
dismissed" as their error, item delete returns "prompt dismissed", and
collection delete returns "prompted dismissed" (the source's spelling) —
never a decoded value and never a transport or decode error. -/
theorem c5_dismissed_outcome (conn : Conn) (pp : String) (v : DValue) (b : List DValue)
    (haddm : conn.addMatchErr = none)
    (hpp : pp ≠ "/")
    (hb : conn.call pp promptMethodPrompt [DValue.str ""] = Except.ok b)
    (hev : storeCompleted (promptWaitBody pp conn.stream) = some (true, v)) :
    (∀ label aliasName cp,
      conn.call SecretServicePath serviceMethodCreateCollection
          [DValue.dict [(collectionPropLabel, DValue.variant (DValue.str label))],
           DValue.str aliasName] = Except.ok [DValue.path cp, DValue.path pp] →
      (ServiceH.CreateCollection { conn := conn } label aliasName).2 =
        Except.error "prompt dismissed") ∧
    (∀ ps l,
      conn.call SecretServicePath serviceMethodLock [DValue.paths ps] =
        Except.ok [DValue.paths l, DValue.path pp] →
      (ServiceH.Lock { conn := conn } ps).2 = (some l, some "prompt dismissed")) ∧
    (∀ ps l,
      conn.call SecretServicePath serviceMethodUnlock [DValue.paths ps] =
        Except.ok [DValue.paths l, DValue.path pp] →
      (ServiceH.Unlock { conn := conn } ps).2 = (some l, some "prompt dismissed")) ∧
    (∀ ip,
      conn.call ip itemMethodDelete [] = Except.ok [DValue.path pp] →
      (ItemH.Delete { path := ip, conn := conn }).2 = some "prompt dismissed") ∧
    (∀ cp,
      conn.call cp collectionMethodDelete [] = Except.ok [DValue.path pp] →
      (CollH.Delete { conn := conn, path := cp }).2 = some "prompted dismissed") := by
  have hsends : promptGoroutine pp conn.stream = [none] :=
    promptGoroutine_dismissed pp conn.stream v hev
  have hPr := prompt_shape_ok conn pp "" b haddm hb
  refine ⟨?_, ?_, ?_, ?_, ?_⟩
  · intro label aliasName cp htr
    simp [ServiceH.CreateCollection, htr, storeTwoPaths, hpp, hPr, hsends, chanRecv]
  · intro ps l htr
    simp [ServiceH.Lock, htr, storeLock, hpp, hPr, hsends, chanRecv]
  · intro ps l htr
    simp [ServiceH.Unlock, htr, storeLock, hpp, hPr, hsends, chanRecv]
  · intro ip htr
    simp [ItemH.Delete, htr, storeOnePath, hpp, hPr, hsends, chanRecv]
  · intro cp htr
    simp [CollH.Delete, htr, storeOnePath, hpp, hPr, hsends, chanRecv]

def connC5 : Conn :=
  { call := fun _ m _ =>
      if m = serviceMethodCreateCollection then
        Except.ok [DValue.path "", DValue.path "/p/5"]
      else if m = serviceMethodLock then
        Except.ok [DValue.paths ["/c/a"], DValue.path "/p/5"]
      else if m = serviceMethodUnlock then
        Except.ok [DValue.paths ["/c/b"], DValue.path "/p/5"]
      else if m = promptMethodPrompt then
        Except.ok []
      else
        Except.ok [DValue.path "/p/5"]
    getProp := fun _ _ => Except.ok (DValue.str "lbl")
    addMatchErr := none
    stream := [{ path := "/p/5", body := [DValue.bool true, DValue.str ""] }] }

theorem c5_witness :
    (ServiceH.CreateCollection { conn := connC5 } "test" "").2 =
      Except.error "prompt dismissed" ∧
    (ServiceH.Lock { conn := connC5 } ["/c/a"]).2 =
      (some ["/c/a"], some "prompt dismissed") ∧
    (ServiceH.Unlock { conn := connC5 } ["/c/b"]).2 =
      (some ["/c/b"], some "prompt dismissed") ∧
    (ItemH.Delete { path := "/it/1", conn := connC5 }).2 = some "prompt dismissed" ∧
    (CollH.Delete { conn := connC5, path := "/c/1" }).2 = some "prompted dismissed" :=
  ⟨(c5_dismissed_outcome connC5 "/p/5" (DValue.str "") [] rfl (by decide) rfl rfl).1
      "test" "" "" rfl,
   (c5_dismissed_outcome connC5 "/p/5" (DValue.str "") [] rfl (by decide) rfl rfl).2.1
      ["/c/a"] ["/c/a"] rfl,
   (c5_dismissed_outcome connC5 "/p/5" (DValue.str "") [] rfl (by decide) rfl rfl).2.2.1
      ["/c/b"] ["/c/b"] rfl,
   (c5_dismissed_outcome connC5 "/p/5" (DValue.str "") [] rfl (by decide) rfl rfl).2.2.2.1
      "/it/1" rfl,
   (c5_dismissed_outcome connC5 "/p/5" (DValue.str "") [] rfl (by decide) rfl rfl).2.2.2.2
      "/c/1" rfl⟩

theorem getCollectionsLoop_ok (conn : Conn) (ps : List String) (lab : String → String)
    (hlab : ∀ p ∈ ps, conn.getProp p collectionPropLabel = Except.ok (DValue.str (lab p))) :
    (getCollectionsLoop conn ps).2 =
      Except.ok (ps.map fun p => { conn := conn, path := p : CollH }) := by
  induction ps with
  | nil => rfl
  | cons p rest ih =>
    have hp := hlab p (List.mem_cons_self p rest)
    have hr := ih (fun q hq => hlab q (List.mem_cons_of_mem p hq))
    cases hrec : getCollectionsLoop conn rest with
    | mk t2 r2 =>
      rw [hrec] at hr
      simp only at hr
      simp [getCollectionsLoop, GetCollectionH, CollH.GetLabel, hp, hrec, hr]

theorem getItemsLoop_ok (conn : Conn) (qs : List String) (ilab : String → String)
    (hilab : ∀ q ∈ qs, conn.getProp q itemPropLabel = Except.ok (DValue.str (ilab q))) :
    (getItemsLoop conn qs).2 =
      Except.ok (qs.map fun q => { path := q, conn := conn : ItemH }) := by
  induction qs with
  | nil => rfl
  | cons q rest ih =>
    have hq := hilab q (List.mem_cons_self q rest)
    have hr := ih (fun a ha => hilab a (List.mem_cons_of_mem q ha))
    cases hrec : getItemsLoop conn rest with
    | mk t2 r2 =>
      rw [hrec] at hr
      simp only at hr
      simp [getItemsLoop, GetItemH, ItemH.GetLabel, hq, hrec, hr]

theorem scanCollections_spec (conn : Conn) (name : String) (ps : List String)
    (lab : String → String)
    (hlab : ∀ p ∈ ps, conn.getProp p collectionPropLabel = Except.ok (DValue.str (lab p))) :
    (scanCollections name (ps.map fun p => { conn := conn, path := p : CollH })).2 =
      (match ps.find? (fun p => lab p == name) with
       | some p => Except.ok { conn := conn, path := p : CollH }
       | none => Except.error "unknown collection") := by
  induction ps with
  | nil => rfl
  | cons p rest ih =>
    have hp := hlab p (List.mem_cons_self p rest)
    by_cases h : lab p = name
    · rw [List.map_cons, List.find?_cons_of_pos _ (by simp [h])]
      simp [scanCollections, CollH.GetLabel, hp, h]
    · have hr := ih (fun q hq => hlab q (List.mem_cons_of_mem p hq))
      cases hrec : scanCollections name (rest.map fun p => { conn := conn, path := p : CollH }) with
      | mk t2 r2 =>
        rw [hrec] at hr
        simp only at hr
        rw [List.map_cons, List.find?_cons_of_neg _ (by simp [h])]
        simp [scanCollections, CollH.GetLabel, hp, h, hrec, hr]

theorem scanItems_spec (conn : Conn) (name : String) (qs : List String)
    (ilab : String → String)
    (hilab : ∀ q ∈ qs, conn.getProp q itemPropLabel = Except.ok (DValue.str (ilab q))) :
    (scanItems name (qs.map fun q => { path := q, conn := conn : ItemH })).2 =
      (match qs.find? (fun q => ilab q == name) with
       | some q => Except.ok { path := q, conn := conn : ItemH }
       | none => Except.error "no such item") := by
  induction qs with
  | nil => rfl
  | cons q rest ih =>
    have hq := hilab q (List.mem_cons_self q rest)
    by_cases h : ilab q = name
    · rw [List.map_cons, List.find?_cons_of_pos _ (by simp [h])]
      simp [scanItems, ItemH.GetLabel, hq, h]
    · have hr := ih (fun a ha => hilab a (List.mem_cons_of_mem q ha))
      cases hrec : scanItems name (rest.map fun q => { path := q, conn := conn : ItemH }) with
      | mk t2 r2 =>
        rw [hrec] at hr
        simp only at hr
        rw [List.map_cons, List.find?_cons_of_neg _ (by simp [h])]
        simp [scanItems, ItemH.GetLabel, hq, h, hrec, hr]

/-- C6: lookup by label enumerates the full remote list on every call (the
first transport action of each call is the enumeration property read) and
returns the first entry whose label is a case-sensitive exact match for
the requested name; with no match, GetCollection fails with the
unknown-collection error and GetItem with the no-such-item error. -/
theorem c6_lookup_by_label (conn : Conn) (name cpath : String)
    (ps qs : List String) (lab ilab : String → String)
    (hcols : conn.getProp SecretServicePath servicePropCollections =
      Except.ok (DValue.paths ps))
    (hlab : ∀ p ∈ ps, conn.getProp p collectionPropLabel = Except.ok (DValue.str (lab p)))
    (hitems : conn.getProp cpath collectionPropItems = Except.ok (DValue.paths qs))
    (hilab : ∀ q ∈ qs, conn.getProp q itemPropLabel = Except.ok (DValue.str (ilab q))) :
    (ServiceH.GetCollection { conn := conn } name).2 =
      (match ps.find? (fun p => lab p == name) with
       | some p => Except.ok { conn := conn, path := p : CollH }
       | none => Except.error "unknown collection") ∧
    (ServiceH.GetCollection { conn := conn } name).1.head? =
      some (Act.getProp SecretServicePath servicePropCollections) ∧
    (CollH.GetItem { conn := conn, path := cpath } name).2 =
      (match qs.find? (fun q => ilab q == name) with
       | some q => Except.ok { path := q, conn := conn : ItemH }
       | none => Except.error "no such item") ∧
    (CollH.GetItem { conn := conn, path := cpath } name).1.head? =
      some (Act.getProp cpath collectionPropItems) := by
  have hloopc := getCollectionsLoop_ok conn ps lab hlab
  have hscanc := scanCollections_spec conn name ps lab hlab
  have hloopi := getItemsLoop_ok conn qs ilab hilab
  have hscani := scanItems_spec conn name qs ilab hilab
  cases hl : getCollectionsLoop conn ps with
  | mk t r =>
    rw [hl] at hloopc
    simp only at hloopc
    cases hsc : scanCollections name (ps.map fun p => { conn := conn, path := p : CollH }) with
    | mk t2 r2 =>
      rw [hsc] at hscanc
      simp only at hscanc
      have hall : ServiceH.GetAllCollections { conn := conn } =
          (Act.getProp SecretServicePath servicePropCollections :: t,
           Except.ok (ps.map fun p => { conn := conn, path := p : CollH })) := by
        simp [ServiceH.GetAllCollections, hcols, hl, hloopc]
      have hgc : ServiceH.GetCollection { conn := conn } name =
          ((Act.getProp SecretServicePath servicePropCollections :: t) ++ t2, r2) := by
        simp [ServiceH.GetCollection, hall, hsc]
      cases hi : getItemsLoop conn qs with
      | mk ti ri =>
        rw [hi] at hloopi
        simp only at hloopi
        cases hsi : scanItems name (qs.map fun q => { path := q, conn := conn : ItemH }) with
        | mk ti2 ri2 =>
          rw [hsi] at hscani
          simp only at hscani
          have halli : CollH.GetAllItems { conn := conn, path := cpath } =
              (Act.getProp cpath collectionPropItems :: ti,
               Except.ok (qs.map fun q => { path := q, conn := conn : ItemH })) := by
            simp [CollH.GetAllItems, hitems, hi, hloopi]
          have hgi : CollH.GetItem { conn := conn, path := cpath } name =
              ((Act.getProp cpath collectionPropItems :: ti) ++ ti2, ri2) := by
            simp [CollH.GetItem, halli, hsi]
          refine ⟨?_, ?_, ?_, ?_⟩
          · rw [hgc]
            exact hscanc
          · rw [hgc]
            rfl
          · rw [hgi]
            exact hscani
          · rw [hgi]
            rfl

def connC6 : Conn :=
  { call := fun _ _ _ => Except.ok []
    getProp := fun pa pr =>
      if pr = servicePropCollections then Except.ok (DValue.paths ["/c/1"])
      else if pr = collectionPropItems then Except.ok (DValue.paths ["/i/1"])
      else Except.ok (DValue.str "collA")
    addMatchErr := none
    stream := [] }

theorem c6_witness :
    (ServiceH.GetCollection { conn := connC6 } "collA").2 =
      Except.ok { conn := connC6, path := "/c/1" } ∧
    (ServiceH.GetCollection { conn := connC6 } "collA").1.head? =
      some (Act.getProp SecretServicePath servicePropCollections) ∧
    (CollH.GetItem { conn := connC6, path := "/c/1" } "collA").2 =
      Except.ok { path := "/i/1", conn := connC6 } ∧
    (CollH.GetItem { conn := connC6, path := "/c/1" } "collA").1.head? =
      some (Act.getProp "/c/1" collectionPropItems) := by
  have h := c6_lookup_by_label connC6 "collA" "/c/1" ["/c/1"] ["/i/1"]
    (fun _ => "collA") (fun _ => "collA") rfl
    (by intro p hp; rw [List.mem_singleton] at hp; subst hp; rfl) rfl
    (by intro q hq; rw [List.mem_singleton] at hq; subst hq; rfl)
  exact h

theorem getCollectionsLoop_abort (conn : Conn) (xs : List String) (b : String)
    (ys : List String) (e : String)
    (hxs : ∀ x ∈ xs, ∃ h, (GetCollectionH conn x).2 = Except.ok h)
    (hb : (GetCollectionH conn b).2 = Except.error e) :
    (getCollectionsLoop conn (xs ++ b :: ys)).2 = Except.error e := by
  induction xs with
  | nil =>
    cases hGb : GetCollectionH conn b with
    | mk tb rb =>
      rw [hGb] at hb
      simp only at hb
      simp [getCollectionsLoop, hGb, hb]
  | cons x rest ih =>
    obtain ⟨h, hx⟩ := hxs x (List.mem_cons_self x rest)
    cases hGx : GetCollectionH conn x with
    | mk tx rx =>
      rw [hGx] at hx
      simp only at hx
      have hr := ih (fun q hq => hxs q (List.mem_cons_of_mem x hq))
      cases hrec : getCollectionsLoop conn (rest ++ b :: ys) with
      | mk t2 r2 =>
        rw [hrec] at hr
        simp only at hr
        simp [getCollectionsLoop, hGx, hx, hrec, hr]

theorem getItemsLoop_abort (conn : Conn) (xs : List String) (b : String)
    (ys : List String) (e : String)
    (hxs : ∀ x ∈ xs, ∃ h, (GetItemH conn x).2 = Except.ok h)
    (hb : (GetItemH conn b).2 = Except.error e) :
    (getItemsLoop conn (xs ++ b :: ys)).2 = Except.error e := by
  induction xs with
  | nil =>
    cases hGb : GetItemH conn b with
    | mk tb rb =>
      rw [hGb] at hb
      simp only at hb
      simp [getItemsLoop, hGb, hb]
  | cons x rest ih =>
    obtain ⟨h, hx⟩ := hxs x (List.mem_cons_self x rest)
    cases hGx : GetItemH conn x with
    | mk tx rx =>
      rw [hGx] at hx
      simp only at hx
      have hr := ih (fun q hq => hxs q (List.mem_cons_of_mem x hq))
      cases hrec : getItemsLoop conn (rest ++ b :: ys) with
      | mk t2 r2 =>
        rw [hrec] at hr
        simp only at hr
        simp [getItemsLoop, hGx, hx, hrec, hr]

/-- C7: enumeration constructs one handle per identifier in the remote
list; if constructing the handle for any single identifier fails, the
whole call returns that failure and no partial result list is returned
(both for collection.GetAllItems and service.GetAllCollections). -/
theorem c7_enumeration_all_or_nothing (conn : Conn) :
    (∀ cpath xs b ys e,
      conn.getProp cpath collectionPropItems =
        Except.ok (DValue.paths (xs ++ b :: ys)) →
      (∀ x ∈ xs, ∃ h, (GetItemH conn x).2 = Except.ok h) →
      (GetItemH conn b).2 = Except.error e →
      (CollH.GetAllItems { conn := conn, path := cpath }).2 = Except.error e) ∧
    (∀ (cpath : String) (qs : List String) (ilab : String → String),
      conn.getProp cpath collectionPropItems = Except.ok (DValue.paths qs) →
      (∀ q ∈ qs, conn.getProp q itemPropLabel = Except.ok (DValue.str (ilab q))) →
      (CollH.GetAllItems { conn := conn, path := cpath }).2 =
        Except.ok (qs.map fun q => { path := q, conn := conn : ItemH })) ∧
    (∀ xs b ys e,
      conn.getProp SecretServicePath servicePropCollections =
        Except.ok (DValue.paths (xs ++ b :: ys)) →
      (∀ x ∈ xs, ∃ h, (GetCollectionH conn x).2 = Except.ok h) →
      (GetCollectionH conn b).2 = Except.error e →
      (ServiceH.GetAllCollections { conn := conn }).2 = Except.error e) ∧
    (∀ (ps : List String) (lab : String → String),
      conn.getProp SecretServicePath servicePropCollections =
        Except.ok (DValue.paths ps) →
      (∀ p ∈ ps, conn.getProp p collectionPropLabel = Except.ok (DValue.str (lab p))) →
      (ServiceH.GetAllCollections { conn := conn }).2 =
        Except.ok (ps.map fun p => { conn := conn, path := p : CollH })) := by
  refine ⟨?_, ?_, ?_, ?_⟩
  · intro cpath xs b ys e hprop hxs hb
    have habort := getItemsLoop_abort conn xs b ys e hxs hb
    cases hl : getItemsLoop conn (xs ++ b :: ys) with
    | mk t r =>
      rw [hl] at habort
      simp only at habort
      simp [CollH.GetAllItems, hprop, hl, habort]
  · intro cpath qs ilab hprop hilab
    have hok := getItemsLoop_ok conn qs ilab hilab
    cases hl : getItemsLoop conn qs with
    | mk t r =>
      rw [hl] at hok
      simp only at hok
      simp [CollH.GetAllItems, hprop, hl, hok]
  · intro xs b ys e hprop hxs hb
    have habort := getCollectionsLoop_abort conn xs b ys e hxs hb
    cases hl : getCollectionsLoop conn (xs ++ b :: ys) with
    | mk t r =>
      rw [hl] at habort
      simp only at habort
      simp [ServiceH.GetAllCollections, hprop, hl, habort]
  · intro ps lab hprop hlab
    have hok := getCollectionsLoop_ok conn ps lab hlab
    cases hl : getCollectionsLoop conn ps with
    | mk t r =>
      rw [hl] at hok
      simp only at hok
      simp [ServiceH.GetAllCollections, hprop, hl, hok]

def connC7a : Conn :=
  { call := fun _ _ _ => Except.ok []
    getProp := fun pa pr =>
      if pr = servicePropCollections then Except.ok (DValue.paths ["/c/ok", "/c/bad"])
      else if pr = collectionPropItems then Except.ok (DValue.paths ["/i/ok", "/i/bad"])
      else if pa = "/i/bad" then Except.error "boom"
      else if pa = "/c/bad" then Except.error "boom"
      else Except.ok (DValue.str "l")
    addMatchErr := none
    stream := [] }

def connC7b : Conn :=
  { call := fun _ _ _ => Except.ok []
    getProp := fun _ pr =>
      if pr = servicePropCollections then Except.ok (DValue.paths ["/c/1", "/c/2"])
      else if pr = collectionPropItems then Except.ok (DValue.paths ["/i/1"])
      else Except.ok (DValue.str "l")
    addMatchErr := none
    stream := [] }

theorem c7_witness :
    (CollH.GetAllItems { conn := connC7a, path := "/c/ok" }).2 = Except.error "boom" ∧
    (CollH.GetAllItems { conn := connC7b, path := "/c/1" }).2 =
      Except.ok [{ path := "/i/1", conn := connC7b }] ∧
    (ServiceH.GetAllCollections { conn := connC7a }).2 = Except.error "boom" ∧
    (ServiceH.GetAllCollections { conn := connC7b }).2 =
      Except.ok [{ conn := connC7b, path := "/c/1" }, { conn := connC7b, path := "/c/2" }] :=
  ⟨(c7_enumeration_all_or_nothing connC7a).1 "/c/ok" ["/i/ok"] "/i/bad" [] "boom" rfl
      (by intro x hx; rw [List.mem_singleton] at hx; subst hx
          exact ⟨{ path := "/i/ok", conn := connC7a }, rfl⟩) rfl,
   (c7_enumeration_all_or_nothing connC7b).2.1 "/c/1" ["/i/1"] (fun _ => "l") rfl
      (by intro q hq; rw [List.mem_singleton] at hq; subst hq; rfl),
   (c7_enumeration_all_or_nothing connC7a).2.2.1 ["/c/ok"] "/c/bad" [] "boom" rfl
      (by intro x hx; rw [List.mem_singleton] at hx; subst hx
          exact ⟨{ conn := connC7a, path := "/c/ok" }, rfl⟩) rfl,
   (c7_enumeration_all_or_nothing connC7b).2.2.2 ["/c/1", "/c/2"] (fun _ => "l") rfl
      (by intro p hp; rw [List.mem_cons] at hp
          rcases hp with rfl | hp
          · rfl
          · rw [List.mem_singleton] at hp; subst hp; rfl)⟩

def connC8 : Conn :=
  { call := fun _ m _ =>
      if m = serviceMethodReadAlias then Except.ok [DValue.path "/"] else Except.ok []
    getProp := fun _ _ => Except.ok (DValue.str "l")
    addMatchErr := none
    stream := [] }

/-- C8 counterexample: against a remote whose ReadAlias call succeeds with
the null path, service.ReadAlias returns the non-empty path "/" together
with the unknown-alias error in the same return — refuting the claim that
Lock, Unlock and ReadAlias return no result value whenever they return an
error. -/
theorem c8_counterexample :
    (ServiceH.ReadAlias { conn := connC8 } "default").2 = ("/", some "unknown alias") ∧
    ("/" : String) ≠ "" := by
  constructor
  · rfl
  · decide

/-- C8 (amended): every remote-facing operation surfaces its error (no
error is swallowed), and transport or decode failures return the zero
value; but ReadAlias resolving the null path returns "/" together with the
unknown-alias error, and Lock/Unlock whose prompt is dismissed return the
primary path list together with the prompt-dismissed error. -/
theorem c8_amended (conn : Conn) (name : String) :
    (∀ e, conn.call SecretServicePath serviceMethodReadAlias [DValue.str name] =
        Except.error e →
      (ServiceH.ReadAlias { conn := conn } name).2 = ("", some e)) ∧
    (conn.call SecretServicePath serviceMethodReadAlias [DValue.str name] =
        Except.ok [DValue.path "/"] →
      (ServiceH.ReadAlias { conn := conn } name).2 = ("/", some "unknown alias")) ∧
    (∀ p, p ≠ "/" →
      conn.call SecretServicePath serviceMethodReadAlias [DValue.str name] =
        Except.ok [DValue.path p] →
      (ServiceH.ReadAlias { conn := conn } name).2 = (p, none)) ∧
    (∀ ps e, conn.call SecretServicePath serviceMethodLock [DValue.paths ps] =
        Except.error e →
      (ServiceH.Lock { conn := conn } ps).2 = (none, some e)) ∧
    (∀ ps e, conn.call SecretServicePath serviceMethodUnlock [DValue.paths ps] =
        Except.error e →
      (ServiceH.Unlock { conn := conn } ps).2 = (none, some e)) ∧
    (∀ ps l pp v b,
      conn.addMatchErr = none → pp ≠ "/" →
      conn.call pp promptMethodPrompt [DValue.str ""] = Except.ok b →
      storeCompleted (promptWaitBody pp conn.stream) = some (true, v) →
      conn.call SecretServicePath serviceMethodLock [DValue.paths ps] =
        Except.ok [DValue.paths l, DValue.path pp] →
      (ServiceH.Lock { conn := conn } ps).2 = (some l, some "prompt dismissed")) := by
  refine ⟨?_, ?_, ?_, ?_, ?_, ?_⟩
  · intro e he
    simp [ServiceH.ReadAlias, he]
  · intro hc
    simp [ServiceH.ReadAlias, hc]
  · intro p hp hc
    simp [ServiceH.ReadAlias, hc, hp]
  · intro ps e he
    simp [ServiceH.Lock, he]
  · intro ps e he
    simp [ServiceH.Unlock, he]
  · intro ps l pp v b haddm hpp hb hev htr
    have hsends : promptGoroutine pp conn.stream = [none] :=
      promptGoroutine_dismissed pp conn.stream v hev
    have hPr := prompt_shape_ok conn pp "" b haddm hb
    simp [ServiceH.Lock, htr, storeLock, hpp, hPr, hsends, chanRecv]

def connC8b : Conn :=
  { call := fun _ m _ =>
      if m = serviceMethodLock then Except.ok [DValue.paths ["/c/a"], DValue.path "/p/8"]
      else Except.ok []
    getProp := fun _ _ => Except.ok (DValue.str "l")
    addMatchErr := none
    stream := [{ path := "/p/8", body := [DValue.bool true, DValue.str ""] }] }

theorem c8_amended_witness :
    (ServiceH.ReadAlias { conn := connC8 } "default").2 = ("/", some "unknown alias") ∧
    (ServiceH.Lock { conn := connC8b } ["/c/a"]).2 =
      (some ["/c/a"], some "prompt dismissed") := by
  constructor
  · exact (c8_amended connC8 "default").2.1 rfl
  · exact (c8_amended connC8b "x").2.2.2.2.2 ["/c/a"] ["/c/a"] "/p/8" (DValue.str "") []
      rfl (by decide) rfl rfl rfl

/-- C9: when the remote ReadAlias call succeeds and yields the null path
"/", service.ReadAlias fails with the unknown-alias error rather than
treating "/" as a valid collection identifier; and RemoveAlias is
definitionally SetAlias with the null path. -/
theorem c9_alias_null_path (conn : Conn) (name : String) :
    (conn.call SecretServicePath serviceMethodReadAlias [DValue.str name] =
        Except.ok [DValue.path "/"] →
      (ServiceH.ReadAlias { conn := conn } name).2.2 = some "unknown alias") ∧
    ServiceH.RemoveAlias { conn := conn } name = ServiceH.SetAlias { conn := conn } name "/" := by
  constructor
  · intro hc
    simp [ServiceH.ReadAlias, hc]
  · rfl

def connC9 : Conn :=
  { call := fun _ m _ =>
      if m = serviceMethodReadAlias then Except.ok [DValue.path "/"] else Except.ok []
    getProp := fun _ _ => Except.ok (DValue.str "l")
    addMatchErr := none
    stream := [] }

theorem c9_witness :
    (ServiceH.ReadAlias { conn := connC9 } "default").2.2 = some "unknown alias" ∧
    ServiceH.RemoveAlias { conn := connC9 } "default" =
      ServiceH.SetAlias { conn := connC9 } "default" "/" :=
  ⟨(c9_alias_null_path connC9 "default").1 rfl,
   (c9_alias_null_path connC9 "default").2⟩

/-- C10: entity handles are immutable records of the shared connection and
the object identifier supplied at construction; each Path accessor (and
the item's path field, which has no exported accessor) returns exactly
that identifier, also when construction validates the handle by a label
read.  Operations are pure functions of the handle and never produce a
modified handle. -/
theorem c10_handles_immutable (conn : Conn) (p : String) :
    (GetPrompt conn p).Path = p ∧
    ((GetSession conn p).1).Path = p ∧
    (∀ h, (GetCollectionH conn p).2 = Except.ok h → h.Path = p ∧ h.conn = conn) ∧
    (∀ h, (GetItemH conn p).2 = Except.ok h → h.path = p ∧ h.conn = conn) := by
  refine ⟨rfl, rfl, ?_, ?_⟩
  · intro h hh
    cases hv : conn.getProp p collectionPropLabel with
    | error e =>
      simp [GetCollectionH, CollH.GetLabel, hv] at hh
    | ok v =>
      cases v <;> simp [GetCollectionH, CollH.GetLabel, hv] at hh
      exact ⟨congrArg CollH.path hh.symm, congrArg CollH.conn hh.symm⟩
  · intro h hh
    cases hv : conn.getProp p itemPropLabel with
    | error e =>
      simp [GetItemH, ItemH.GetLabel, hv] at hh
    | ok v =>
      cases v <;> simp [GetItemH, ItemH.GetLabel, hv] at hh
      exact ⟨congrArg ItemH.path hh.symm, congrArg ItemH.conn hh.symm⟩

def connC10 : Conn :=
  { call := fun _ _ _ => Except.ok []
    getProp := fun _ _ => Except.ok (DValue.str "l")
    addMatchErr := none
    stream := [] }

theorem c10_witness :
    PromptH.Path (GetPrompt connC10 "/x") = "/x" ∧
    CollH.Path { conn := connC10, path := "/x" } = "/x" ∧
    ItemH.path { path := "/x", conn := connC10 } = "/x" :=
  ⟨(c10_handles_immutable connC10 "/x").1,
   ((c10_handles_immutable connC10 "/x").2.2.1 { conn := connC10, path := "/x" } rfl).1,
   ((c10_handles_immutable connC10 "/x").2.2.2 { path := "/x", conn := connC10 } rfl).1⟩

end Keyring
